import Mathlib

/-!
TikTok profile scraper: scroll loop, extraction heuristics and CSV writer.

A shallow embedding of `src/tiktok-scraper.js` (class `TikTokScraper`).

* The page is an external collaborator.  For the scroll loop it is a stream
  of per-iteration answers (`PageCalls`): the item count returned by the
  counting `page.evaluate`, and whether the scroll `page.evaluate` and
  `page.waitForTimeout` resolve or reject.
* For the extractor the page is the list of item elements, each reduced to
  exactly what the callback of `videoElements.forEach` reads from it.
* JavaScript built-ins whose Unicode behaviour is not reproduced here
  (`String.prototype.toLowerCase`, `String.prototype.trim`, the clock behind
  `new Date().toISOString()`) are fields of `JsEnv`; every general theorem
  holds for all of them.
-/

namespace TikTokScraper

/-! ## Configuration (lines 5-9) -/

/-- Upper bound on the number of scrolls: `const MAX_SCROLLS = 50`. -/
def MAX_SCROLLS : Nat := 50

/-! ## scrollToLoadAllVideos (lines 91-133) -/

/-- The answers of the page to the three awaited calls of one loop iteration.
`count = none` means the counting `page.evaluate` rejects; `scroll = false`
means the scrolling `page.evaluate` rejects; `delay = false` means
`page.waitForTimeout` rejects.  A later call is only issued when the earlier
ones resolved. -/
structure PageCalls where
  count : Option Nat
  scroll : Bool
  delay : Bool
  deriving DecidableEq, Repr

/-- Some awaited call of the iteration rejects (the first one that does is the
one that throws). -/
def PageCalls.fails (p : PageCalls) : Bool :=
  p.count.isNone || !p.scroll || !p.delay

/-- The three local variables of `scrollToLoadAllVideos`, followed by
instrumentation: `measurements` counts the counting `page.evaluate` calls
issued, `counts` is the list of values printed by the `console.log` of line
106, `stalls` records `noNewVideosCount` right after the comparison of lines
109-113, and `caught` tells whether the `catch` block of lines 126-129 ran. -/
structure ScrollState where
  scrollCount : Nat
  previousVideoCount : Nat
  noNewVideosCount : Nat
  measurements : Nat
  counts : List Nat
  stalls : List Nat
  caught : Bool
  deriving DecidableEq, Repr

/-- Lines 94-96: `scrollCount = 0`, `previousVideoCount = 0`,
`noNewVideosCount = 0`. -/
def ScrollState.init : ScrollState :=
  { scrollCount := 0, previousVideoCount := 0, noNewVideosCount := 0,
    measurements := 0, counts := [], stalls := [], caught := false }

/-- The `while` loop of lines 98-130.  `page k` answers the calls of the
`k`-th loop iteration started (0-based).  The first argument is fuel: `none`
means the fuel ran out before the loop ended. -/
def scrollLoop (page : Nat → PageCalls) : Nat → ScrollState → Option ScrollState
  | 0, _ => none
  | fuel + 1, s =>
    if s.scrollCount < MAX_SCROLLS ∧ s.noNewVideosCount < 3 then
      match (page s.measurements).count with
      | none => some { s with measurements := s.measurements + 1, caught := true }
      | some currentVideoCount =>
        let noNewVideosCount :=
          if currentVideoCount = s.previousVideoCount then s.noNewVideosCount + 1 else 0
        let t : ScrollState :=
          { s with measurements := s.measurements + 1,
                   counts := s.counts ++ [currentVideoCount],
                   noNewVideosCount := noNewVideosCount,
                   stalls := s.stalls ++ [noNewVideosCount] }
        if (page s.measurements).scroll = false then some { t with caught := true }
        else if (page s.measurements).delay = false then some { t with caught := true }
        else
          scrollLoop page fuel
            { t with previousVideoCount := currentVideoCount,
                     scrollCount := s.scrollCount + 1 }
    else some s

/-- The method `scrollToLoadAllVideos`: the loop run from the initial state.
`some r` means the method returns normally (reaching the final `console.log`
of line 132, which prints `r.scrollCount`). -/
def scrollToLoadAllVideos (fuel : Nat) (page : Nat → PageCalls) : Option ScrollState :=
  scrollLoop page fuel ScrollState.init

/-- A page on which no call fails and whose `k`-th measurement returns `c k`. -/
def okPage (c : Nat → Nat) : Nat → PageCalls :=
  fun k => { count := some (c k), scroll := true, delay := true }

/-- A stream of counts that starts with the listed values and continues with
`rest`. -/
def countsThen (l : List Nat) (rest : Nat → Nat) : Nat → Nat :=
  fun k => if h : k < l.length then l.get ⟨k, h⟩ else rest (k - l.length)

/-! ### The exit rule in the words of the specification -/

/-- The count the `k`-th measurement (0-based) is compared with: 0 for the
first measurement, the preceding measurement otherwise. -/
def prevCount (c : Nat → Nat) (k : Nat) : Nat :=
  if k = 0 then 0 else c (k - 1)

/-- Number of consecutive measurements, ending with measurement `k` and going
backwards, whose count equals the count they are compared with. -/
def stallRun (c : Nat → Nat) (k : Nat) : Nat :=
  ((List.range (k + 1)).reverse.takeWhile (fun j => decide (c j = prevCount c j))).length

/-- The exit condition after `n` completed iterations: the stall run of the
last measurement reached 3 or the iteration counter reached the cap. -/
def exitAfter (c : Nat → Nat) (n : Nat) : Prop :=
  3 ≤ stallRun c (n - 1) ∨ MAX_SCROLLS ≤ n

/-! ## extractVideoData (lines 136-218) -/

/-- JavaScript built-ins that are kept abstract: `String.prototype.toLowerCase`,
`String.prototype.trim` and the clock read by `new Date().toISOString()`
(`now i` is the stamp taken while item `i` is processed). -/
structure JsEnv where
  toLowerCase : String → String
  trim : String → String
  now : Nat → String

/-- The method `String.prototype.includes`: `sub` occurs in `s` as a contiguous
run of characters. -/
def includes (s sub : String) : Bool :=
  s.data.tails.any (fun t => sub.data.isPrefixOf t)

/-- The test `/^\d+$/.test(text)`: a non-empty run of the digits 0-9. -/
def digitsOnly (text : String) : Bool :=
  !text.data.isEmpty && text.data.all (fun ch => decide ('0' ≤ ch ∧ ch ≤ '9'))

/-- What the callback reads from `stat.previousElementSibling`: the `outerHTML`
of its first `svg` descendant (`querySelector('svg')`, `none` when there is
none) and its own `outerHTML`. -/
structure Sibling where
  svg : Option String
  outerHTML : String
  deriving DecidableEq, Repr

/-- A `.video-count` element: its `textContent` and its
`previousElementSibling` (`none` when it is the first child). -/
structure StatElement where
  textContent : String
  previousElementSibling : Option Sibling
  deriving DecidableEq, Repr

/-- What the callback reads from one `[data-e2e="user-post-item"]` element:
`a` is the `href` of the first `a` descendant and `img` the `src` of the first
`img` descendant (`none` when `querySelector` returns `null`), `desc` and
`caption` are the `textContent` of the first
`[data-e2e="user-post-item-desc"]` and `.video-meta-caption` descendants,
`videoCount` lists the `.video-count` descendants and `strong` the
`textContent` of the `strong` descendants, in document order. -/
structure ItemElement where
  a : Option String
  img : Option String
  desc : Option String
  caption : Option String
  videoCount : List StatElement
  strong : List String
  deriving DecidableEq, Repr

/-- The object pushed to `extractedVideos` (lines 190-198). -/
structure VideoRecord where
  url : String
  title : String
  thumbnail : String
  likes : String
  comments : String
  views : String
  extractedAt : String
  deriving DecidableEq, Repr

/-- The three variables of line 161. -/
structure Stats where
  views : String
  likes : String
  comments : String
  deriving DecidableEq, Repr

/-- Line 161: `let views = 'N/A', likes = 'N/A', comments = 'N/A'`. -/
def Stats.unavailable : Stats :=
  { views := "N/A", likes := "N/A", comments := "N/A" }

/-- The callback of `statsElements.forEach` (lines 165-179). -/
def statStep (env : JsEnv) (acc : Stats) (stat : StatElement) : Stats :=
  let text := env.toLowerCase stat.textContent
  if includes text "k" || includes text "m" || digitsOnly text then
    match stat.previousElementSibling with
    | some sibling =>
      let icon := match sibling.svg with
        | some svg => svg
        | none => sibling.outerHTML
      if includes icon "heart" then { acc with likes := text }
      else if includes icon "comment" then { acc with comments := text }
      else { acc with views := text }
    | none => acc
  else acc

/-- Lines 160-180: the first tier of the statistics heuristic. -/
def tier1 (env : JsEnv) (statsElements : List StatElement) : Stats :=
  if statsElements.length > 0 then statsElements.foldl (statStep env) Stats.unavailable
  else Stats.unavailable

/-- The expression `text || 'N/A'`. -/
def orUnavailable (text : String) : String :=
  if text = "" then "N/A" else text

/-- Lines 183-187: the second tier, applied when there are at least two
`strong` elements. -/
def tier2 (strongElements : List String) (acc : Stats) : Stats :=
  match strongElements with
  | s0 :: s1 :: _ => { acc with likes := orUnavailable s0, comments := orUnavailable s1 }
  | _ => acc

/-- The body of the callback of `videoElements.forEach` (lines 145-203):
`some video` when a record is pushed, `none` when the element is skipped. -/
def extractElement (env : JsEnv) (index : Nat) (element : ItemElement) : Option VideoRecord :=
  let videoUrl := match element.a with
    | some href => href
    | none => ""
  let thumbnail := match element.img with
    | some src => src
    | none => ""
  let titleElement := match element.desc with
    | some t => some t
    | none => element.caption
  let title := match titleElement with
    | some textContent => env.trim textContent
    | none => "Vídeo " ++ toString (index + 1)
  let stats := tier2 element.strong (tier1 env element.videoCount)
  if videoUrl ≠ "" ∧ thumbnail ≠ "" then
    some { url := videoUrl, title := title, thumbnail := thumbnail,
           likes := stats.likes, comments := stats.comments, views := stats.views,
           extractedAt := env.now index }
  else none

/-- The function evaluated in the page (lines 140-207): the elements are
visited in document order with their index and the records are pushed in that
order. -/
def extractVideoData (env : JsEnv) (videoElements : List ItemElement) : List VideoRecord :=
  videoElements.enum.foldl
    (fun extractedVideos p =>
      match extractElement env p.1 p.2 with
      | some video => extractedVideos ++ [video]
      | none => extractedVideos)
    []

/-! ## saveToJSON (lines 230-247) -/

/-- The object `jsonData` of lines 234-239. -/
structure JsonData where
  profile : String
  totalVideos : Nat
  extractedAt : String
  videos : List VideoRecord
  deriving DecidableEq, Repr

/-- Lines 234-239, with `this.username`, the clock and `this.videos` as
arguments. -/
def saveToJSON (username : String) (now : String) (videos : List VideoRecord) : JsonData :=
  { profile := username, totalVideos := videos.length, extractedAt := now, videos := videos }

/-! ## saveToCSV (lines 250-277) -/

/-- The method `Array.prototype.join` on an array of strings. -/
def join (sep : String) : List String → String
  | [] => ""
  | first :: others => others.foldl (fun r next => r ++ sep ++ next) first

/-- The call `title.replace(/"/g, '""')` on the characters of the title. -/
def doubleQuotes : List Char → List Char
  | [] => []
  | ch :: rest => if ch = '"' then '"' :: '"' :: doubleQuotes rest else ch :: doubleQuotes rest

/-- The template of line 260: the title with its quotes doubled, wrapped in
quotes. -/
def csvTitle (title : String) : String :=
  "\"" ++ String.mk (doubleQuotes title.data) ++ "\""

/-- Line 255. -/
def headers : List String :=
  ["URL", "Título", "Thumbnail", "Likes", "Comentários", "Views", "Data Extração"]

/-- Lines 258-266. -/
def rows (videos : List VideoRecord) : List (List String) :=
  videos.map (fun video =>
    [video.url, csvTitle video.title, video.thumbnail, video.likes, video.comments,
     video.views, video.extractedAt])

/-- Line 269: the content written to the CSV file. -/
def csvContent (videos : List VideoRecord) : String :=
  join "\n" (join "," headers :: (rows videos).map (join ","))

/-! ### Reference definitions used in the statements -/

/-- An ASCII environment for concrete evaluations: lowering maps `A`-`Z` only,
trimming removes leading and trailing white space, the clock is constant.  It
agrees with JavaScript on the ASCII inputs it is applied to below. -/
def asciiEnv : JsEnv :=
  { toLowerCase := fun s => String.mk (s.data.map Char.toLower),
    trim := fun s =>
      String.mk ((s.data.dropWhile Char.isWhitespace).reverse.dropWhile Char.isWhitespace).reverse,
    now := fun _ => "2024-01-01T00:00:00.000Z" }

/-- The element has a link with a non-empty URL and an image with a non-empty
URL. -/
def hasLinkAndImage (element : ItemElement) : Bool :=
  match element.a, element.img with
  | some href, some src => decide (href ≠ "") && decide (src ≠ "")
  | _, _ => false

/-- The three statistic fields. -/
inductive StatField where
  | likes
  | comments
  | views
  deriving DecidableEq, Repr

/-- The field a count element is assigned to: none when its lowered text
neither contains `k` or `m` nor is a run of digits, or when it has no
preceding sibling; otherwise decided by the icon markup (the first `svg` of
the preceding sibling, or that sibling itself when it has no `svg`). -/
def classify (env : JsEnv) (stat : StatElement) : Option StatField :=
  let text := env.toLowerCase stat.textContent
  if includes text "k" || includes text "m" || digitsOnly text then
    stat.previousElementSibling.map (fun sibling =>
      let icon := sibling.svg.getD sibling.outerHTML
      if includes icon "heart" then StatField.likes
      else if includes icon "comment" then StatField.comments
      else StatField.views)
  else none

/-- The value of a field after the first tier: the lowered text of the last
count element assigned to it, or the sentinel when there is none. -/
def lastAssigned (env : JsEnv) (field : StatField) (statsElements : List StatElement) : String :=
  match (statsElements.filter (fun stat => decide (classify env stat = some field))).getLast? with
  | some stat => env.toLowerCase stat.textContent
  | none => "N/A"

/-- Reading a quoted CSV field after its opening quote: a doubled quote is one
quote of the value, a single quote ends the field; the result is the value
and the unread input. -/
def readQuoted : List Char → Option (List Char × List Char)
  | [] => none
  | ch :: rest =>
    if ch = '"' then
      match rest with
      | [] => some ([], [])
      | ch2 :: rest2 =>
        if ch2 = '"' then (readQuoted rest2).map (fun p => ('"' :: p.1, p.2))
        else some ([], ch2 :: rest2)
    else (readQuoted rest).map (fun p => (ch :: p.1, p.2))

/-- A reader that respects CSV quote-escaping, applied to a field that starts
with a quote. -/
def parseQuotedField (input : String) : Option (String × String) :=
  match input.data with
  | [] => none
  | ch :: rest =>
    if ch = '"' then (readQuoted rest).map (fun p => (String.mk p.1, String.mk p.2))
    else none

/-! ### Sample inputs -/

/-- An item with a link and an image and nothing else. -/
def sampleItem : ItemElement :=
  { a := some "https://www.tiktok.com/@user/video/1", img := some "https://cdn.example/1.jpg",
    desc := none, caption := none, videoCount := [], strong := [] }

/-- A preceding sibling that is a heart icon. -/
def heartIcon : Sibling :=
  { svg := some "<svg class=\"heart\"></svg>", outerHTML := "<span><svg class=\"heart\"></svg></span>" }

/-- A preceding sibling whose own markup mentions the heart but whose `svg`
does not. -/
def heartWrapper : Sibling :=
  { svg := some "<svg></svg>", outerHTML := "<span class=\"heart\"><svg></svg></span>" }

/-- A page on which the scroll call of the third iteration rejects. -/
def failingPage : Nat → PageCalls :=
  fun k => { count := some (5 * (k + 1)), scroll := decide (k ≠ 2), delay := true }

/-! ## Theorems: the scroll loop -/

/-- One unfolding of the loop. -/
theorem scrollLoop_succ (page : Nat → PageCalls) (fuel : Nat) (s : ScrollState) :
    scrollLoop page (fuel + 1) s =
      if s.scrollCount < MAX_SCROLLS ∧ s.noNewVideosCount < 3 then
        match (page s.measurements).count with
        | none => some { s with measurements := s.measurements + 1, caught := true }
        | some currentVideoCount =>
          let n := if currentVideoCount = s.previousVideoCount then s.noNewVideosCount + 1 else 0
          let t : ScrollState :=
            { s with measurements := s.measurements + 1,
                     counts := s.counts ++ [currentVideoCount],
                     noNewVideosCount := n,
                     stalls := s.stalls ++ [n] }
          if (page s.measurements).scroll = false then some { t with caught := true }
          else if (page s.measurements).delay = false then some { t with caught := true }
          else scrollLoop page fuel
            { t with previousVideoCount := currentVideoCount, scrollCount := s.scrollCount + 1 }
      else some s := rfl

/-- Invariant of the loop on an arbitrary page: started from a state in which
every iteration so far completed, the loop returns, issues at most
`MAX_SCROLLS` measurements, and a failing iteration is the last one. -/
theorem scrollLoop_general (page : Nat → PageCalls) :
    ∀ (fuel : Nat) (s : ScrollState), s.caught = false → s.measurements = s.scrollCount →
      s.scrollCount ≤ MAX_SCROLLS → MAX_SCROLLS < fuel + s.scrollCount →
      (∀ k, k < s.measurements → (page k).fails = false) →
      ∃ r, scrollLoop page fuel s = some r ∧ r.measurements ≤ MAX_SCROLLS ∧
        (∀ k, k < r.measurements → (page k).fails = true →
          r.caught = true ∧ r.measurements = k + 1 ∧ r.scrollCount = k) ∧
        (r.caught = true → 1 ≤ r.measurements ∧ (page (r.measurements - 1)).fails = true ∧
          r.scrollCount + 1 = r.measurements) ∧
        (r.caught = false → r.scrollCount = r.measurements) := by
  intro fuel
  induction fuel with
  | zero => intro s _ _ h1 h2; omega
  | succ fuel ih =>
    intro s hc hm hle hfuel hok
    rw [scrollLoop_succ]
    by_cases hcond : s.scrollCount < MAX_SCROLLS ∧ s.noNewVideosCount < 3
    · rw [if_pos hcond]
      have hlast : ∀ k, k < s.measurements + 1 → (page k).fails = true → k = s.measurements := by
        intro k hk hf
        by_contra hne
        have := hok k (by omega)
        simp [this] at hf
      cases hcnt : (page s.measurements).count with
      | none =>
        refine ⟨_, rfl, ?_, ?_, ?_, ?_⟩
        · simp; omega
        · intro k hk hf
          have := hlast k hk hf
          simp; omega
        · intro _
          simp [PageCalls.fails, hcnt]; omega
        · simp
      | some cur =>
        simp only []
        by_cases hs : (page s.measurements).scroll = false
        · rw [if_pos hs]
          refine ⟨_, rfl, ?_, ?_, ?_, ?_⟩
          · simp; omega
          · intro k hk hf
            have := hlast k hk hf
            simp; omega
          · intro _
            simp [PageCalls.fails, hs]; omega
          · simp
        · rw [if_neg hs]
          by_cases hd : (page s.measurements).delay = false
          · rw [if_pos hd]
            refine ⟨_, rfl, ?_, ?_, ?_, ?_⟩
            · simp; omega
            · intro k hk hf
              have := hlast k hk hf
              simp; omega
            · intro _
              simp [PageCalls.fails, hd]; omega
            · simp
          · rw [if_neg hd]
            apply ih
            · simpa using hc
            · simp; omega
            · simp; omega
            · simp; omega
            · intro k hk
              simp at hk
              by_cases hk2 : k < s.measurements
              · exact hok k hk2
              · have : k = s.measurements := by omega
                subst this
                simp at hs hd
                simp [PageCalls.fails, hcnt, hs, hd]
    · rw [if_neg hcond]
      refine ⟨s, rfl, by omega, ?_, ?_, ?_⟩
      · intro k hk hf
        have := hok k hk
        simp [this] at hf
      · intro h; simp [hc] at h
      · intro _; exact hm.symm


/-- C1: for every page (every sequence of counts and every pattern of failing
calls) the loop terminates, and it issues at most `MAX_SCROLLS + 1` count
measurements, where `MAX_SCROLLS = 50`; every amount of fuel above
`MAX_SCROLLS` is enough. -/
theorem scrollToLoadAllVideos_terminates (page : Nat → PageCalls) (extra : Nat) :
    MAX_SCROLLS = 50 ∧
    ∃ r, scrollToLoadAllVideos (MAX_SCROLLS + 1 + extra) page = some r ∧
      r.measurements ≤ MAX_SCROLLS + 1 := by
  refine ⟨rfl, ?_⟩
  obtain ⟨r, hr, hm, -⟩ := scrollLoop_general page (MAX_SCROLLS + 1 + extra) ScrollState.init
    rfl rfl (Nat.zero_le _) (by simp [ScrollState.init]; omega)
    (fun k hk => absurd hk (Nat.not_lt_zero k))
  exact ⟨r, hr, Nat.le_succ_of_le hm⟩

/-- The number of measurements only grows, and it grows when the guard of
the loop holds. -/
theorem scrollLoop_measurements (page : Nat → PageCalls) :
    ∀ (fuel : Nat) (s r : ScrollState), scrollLoop page fuel s = some r →
      s.measurements ≤ r.measurements ∧
      (s.scrollCount < MAX_SCROLLS ∧ s.noNewVideosCount < 3 →
        s.measurements < r.measurements) := by
  intro fuel
  induction fuel with
  | zero => intro s r h; simp [scrollLoop] at h
  | succ fuel ih =>
    intro s r h
    rw [scrollLoop_succ] at h
    split at h
    · split at h
      · cases h
        simp
      · simp only at h
        split at h
        · cases h
          simp
        · split at h
          · cases h
            simp
          · have h2 := (ih _ _ h).1
            simp only at h2
            constructor
            · omega
            · intro _; omega
    · rename_i hcond
      cases h
      exact ⟨Nat.le_refl _, fun hc => absurd hc hcond⟩

/-- C4: on every page the method returns normally after starting at least one
iteration, and when an iteration it started has a failing call, the failure
is caught, that iteration is the last one started, and `scrollCount` is the
number of iterations completed before it; conversely the `catch` block only
runs for a failing iteration. -/
theorem scrollToLoadAllVideos_failure_caught (page : Nat → PageCalls) (extra : Nat) :
    ∃ r, scrollToLoadAllVideos (MAX_SCROLLS + 1 + extra) page = some r ∧
      1 ≤ r.measurements ∧
      (∀ k, k < r.measurements → (page k).fails = true →
        r.caught = true ∧ r.measurements = k + 1 ∧ r.scrollCount = k) ∧
      (r.caught = true → (page (r.measurements - 1)).fails = true ∧
        r.scrollCount + 1 = r.measurements) := by
  obtain ⟨r, hr, -, hf, hc, -⟩ := scrollLoop_general page (MAX_SCROLLS + 1 + extra)
    ScrollState.init rfl rfl (Nat.zero_le _) (by simp [ScrollState.init]; omega)
    (fun k hk => absurd hk (Nat.not_lt_zero k))
  have h1 := (scrollLoop_measurements page _ _ _ hr).2 ⟨by decide, by decide⟩
  exact ⟨r, hr, h1, hf, fun h => (hc h).2⟩

/-- A run with a failure: the scroll call of the third iteration rejects, so
three measurements are made, two iterations are counted and the error is
caught. -/
theorem scrollToLoadAllVideos_failingPage :
    scrollToLoadAllVideos (MAX_SCROLLS + 1) failingPage =
      some { scrollCount := 2, previousVideoCount := 10, noNewVideosCount := 0,
             measurements := 3, counts := [5, 10, 15], stalls := [0, 0, 0], caught := true } := by
  decide

/-- The stall run of the first measurement. -/
theorem stallRun_zero (c : Nat → Nat) : stallRun c 0 = if c 0 = 0 then 1 else 0 := by
  have h1 : (List.range 1).reverse = [0] := rfl
  by_cases h : c 0 = 0 <;> simp [stallRun, prevCount, h, h1]

/-- The stall run grows by one on an equal measurement and restarts at 0 on a
different one. -/
theorem stallRun_succ (c : Nat → Nat) (k : Nat) :
    stallRun c (k + 1) = if c (k + 1) = c k then stallRun c k + 1 else 0 := by
  unfold stallRun
  rw [List.range_succ, List.reverse_append]
  by_cases h : c (k + 1) = c k <;> simp [prevCount, h]

/-- Invariant of the loop on a page without failures. -/
theorem scrollLoop_okPage (c : Nat → Nat) :
    ∀ (fuel : Nat) (s : ScrollState), s.caught = false → s.measurements = s.scrollCount →
      s.scrollCount ≤ MAX_SCROLLS → MAX_SCROLLS < fuel + s.scrollCount →
      s.counts = (List.range s.scrollCount).map c →
      s.stalls = (List.range s.scrollCount).map (stallRun c) →
      s.previousVideoCount = prevCount c s.scrollCount →
      s.noNewVideosCount = (if s.scrollCount = 0 then 0 else stallRun c (s.scrollCount - 1)) →
      (∀ k, 1 ≤ k → k < s.scrollCount → ¬ exitAfter c k) →
      ∃ r, scrollLoop (okPage c) fuel s = some r ∧ r.caught = false ∧
        r.measurements = r.scrollCount ∧
        r.counts = (List.range r.scrollCount).map c ∧
        r.stalls = (List.range r.scrollCount).map (stallRun c) ∧
        r.noNewVideosCount = stallRun c (r.scrollCount - 1) ∧
        r.previousVideoCount = c (r.scrollCount - 1) ∧
        1 ≤ r.scrollCount ∧ exitAfter c r.scrollCount ∧
        ∀ k, 1 ≤ k → k < r.scrollCount → ¬ exitAfter c k := by
  intro fuel
  induction fuel with
  | zero => intro s _ _ h1 h2; omega
  | succ fuel ih =>
    intro s hc hm hle hfuel hcounts hstalls hprev hnn hearly
    rw [scrollLoop_succ]
    by_cases hcond : s.scrollCount < MAX_SCROLLS ∧ s.noNewVideosCount < 3
    · rw [if_pos hcond]
      have hstep : (if c s.scrollCount = s.previousVideoCount then s.noNewVideosCount + 1 else 0)
          = stallRun c s.scrollCount := by
        rw [hprev, hnn]
        cases hsc : s.scrollCount with
        | zero => simp [prevCount, stallRun_zero]
        | succ m => simp [prevCount, stallRun_succ]
      simp only [okPage, hm, hstep]
      simp only [Bool.true_eq_false, if_false]
      apply ih
      · simpa using hc
      · simp
      · simp; omega
      · simp; omega
      · simp [List.range_succ, hcounts]
      · simp [List.range_succ, hstalls]
      · simp [prevCount]
      · simp
      · intro k hk1 hk2
        simp only at hk2
        by_cases hk3 : k < s.scrollCount
        · exact hearly k hk1 hk3
        · have hk4 : k = s.scrollCount := by omega
          subst hk4
          have h0 : ¬ s.scrollCount = 0 := by omega
          rw [if_neg h0] at hnn
          unfold exitAfter
          rw [← hnn]
          omega
    · rw [if_neg hcond]
      have h0 : ¬ s.scrollCount = 0 := by
        intro h0
        rw [if_pos h0] at hnn
        apply hcond
        rw [h0, hnn]
        exact ⟨by decide, by decide⟩
      rw [if_neg h0] at hnn
      refine ⟨s, rfl, hc, hm, hcounts, hstalls, hnn, ?_, by omega, ?_, hearly⟩
      · rw [hprev, prevCount, if_neg h0]
      · unfold exitAfter
        rw [← hnn]
        omega


/-- More fuel does not change a result. -/
theorem scrollLoop_fuel_mono (page : Nat → PageCalls) :
    ∀ (fuel : Nat) (s r : ScrollState), scrollLoop page fuel s = some r →
      ∀ extra, scrollLoop page (fuel + extra) s = some r := by
  intro fuel
  induction fuel with
  | zero => intro s r h; simp [scrollLoop] at h
  | succ fuel ih =>
    intro s r h extra
    rw [show fuel + 1 + extra = (fuel + extra) + 1 by omega, scrollLoop_succ]
    rw [scrollLoop_succ] at h
    split at h
    · rename_i hcond
      rw [if_pos hcond]
      split at h
      · rename_i hcnt
        simpa [hcnt] using h
      · rename_i cur hcnt
        simp only [hcnt]
        simp only at h
        split at h
        · rename_i hs
          simpa [hs] using h
        · rename_i hs
          rw [if_neg hs]
          split at h
          · rename_i hd
            simpa [hd] using h
          · rename_i hd
            rw [if_neg hd]
            exact ih _ _ h extra
    · rename_i hcond
      rw [if_neg hcond]
      exact h

/-- A stall run is 0 right after a measurement that differs from the count it
is compared with. -/
theorem stallRun_eq_zero (c : Nat → Nat) (k : Nat) (h : c k ≠ prevCount c k) :
    stallRun c k = 0 := by
  cases k with
  | zero => simpa [stallRun_zero, prevCount] using h
  | succ k => simpa [stallRun_succ, prevCount] using h

/-- C2: on a page without failures whose measurements are `c 0, c 1, ...`, the
stall counter after each measurement is the stall run of that measurement (0
after a measurement that differs from the previous count), and the loop stops
after the first iteration at which the stall run is at least 3 or the
iteration counter is at least `MAX_SCROLLS`, not earlier. -/
theorem scrollToLoadAllVideos_exit_rule (c : Nat → Nat) (extra : Nat) :
    ∃ r, scrollToLoadAllVideos (MAX_SCROLLS + 1 + extra) (okPage c) = some r ∧
      r.caught = false ∧ r.measurements = r.scrollCount ∧
      r.counts = (List.range r.scrollCount).map c ∧
      r.stalls = (List.range r.scrollCount).map (stallRun c) ∧
      (∀ k, k < r.scrollCount → c k ≠ prevCount c k → r.stalls[k]? = some 0) ∧
      r.noNewVideosCount = stallRun c (r.scrollCount - 1) ∧
      1 ≤ r.scrollCount ∧ exitAfter c r.scrollCount ∧
      ∀ k, 1 ≤ k → k < r.scrollCount → ¬ exitAfter c k := by
  obtain ⟨r, hr, hc, hm, hcounts, hstalls, hnn, -, h1, hexit, hearly⟩ :=
    scrollLoop_okPage c (MAX_SCROLLS + 1 + extra) ScrollState.init rfl rfl (Nat.zero_le _)
      (by simp [ScrollState.init]; omega) rfl rfl rfl rfl
      (fun k _ hk => absurd hk (Nat.not_lt_zero k))
  refine ⟨r, hr, hc, hm, hcounts, hstalls, ?_, hnn, h1, hexit, hearly⟩
  intro k hk hne
  rw [hstalls]
  simp [hk, stallRun_eq_zero c k hne]

/-- C3 (as stated, refuted): with counts 5, 10, 10, 10, 10 the stall counter
after the 4th measurement is 2 and the loop makes a 5th measurement instead of
stopping after the 4th; on a page with 12 static items revealed 5 per trigger
the first five counts are 5, 10, 12, 12, 12, the stall counter after the 5th
is 2, and the loop makes 6 measurements, not 5. -/
theorem scrollToLoadAllVideos_examples_refuted :
    (∃ r, scrollToLoadAllVideos (MAX_SCROLLS + 1)
        (okPage (countsThen [5, 10, 10, 10, 10] (fun _ => 10))) = some r ∧
      r.counts = [5, 10, 10, 10, 10] ∧ r.stalls = [0, 0, 1, 2, 3] ∧
      r.measurements = 5 ∧ r.measurements ≠ 4) ∧
    (∃ r, scrollToLoadAllVideos (MAX_SCROLLS + 1)
        (okPage (fun k => min (5 * (k + 1)) 12)) = some r ∧
      r.counts = [5, 10, 12, 12, 12, 12] ∧ r.stalls = [0, 0, 0, 1, 2, 3] ∧
      r.measurements = 6 ∧ r.measurements ≠ 5) := by
  refine ⟨⟨{ scrollCount := 5, previousVideoCount := 10, noNewVideosCount := 3,
             measurements := 5, counts := [5, 10, 10, 10, 10], stalls := [0, 0, 1, 2, 3],
             caught := false }, ?_, rfl, rfl, rfl, ?_⟩,
          ⟨{ scrollCount := 6, previousVideoCount := 12, noNewVideosCount := 3,
             measurements := 6, counts := [5, 10, 12, 12, 12, 12],
             stalls := [0, 0, 0, 1, 2, 3], caught := false }, ?_, rfl, rfl, rfl, ?_⟩⟩ <;>
    decide

/-- C3 (amended): on every page without failures whose first measurements are
5, 10, 10, 10, 10 the loop stops after the 5th measurement with final count 10
and stall count 3; on every one whose first measurements are 5, 10, 12, 12,
12, 12 (such as the page with 12 static items revealed 5 per trigger) it makes
exactly 6 measurements and stops with stall count 3. -/
theorem scrollToLoadAllVideos_examples (rest : Nat → Nat) (extra : Nat) :
    scrollToLoadAllVideos (MAX_SCROLLS + 1 + extra)
        (okPage (countsThen [5, 10, 10, 10, 10] rest)) =
      some { scrollCount := 5, previousVideoCount := 10, noNewVideosCount := 3,
             measurements := 5, counts := [5, 10, 10, 10, 10], stalls := [0, 0, 1, 2, 3],
             caught := false } ∧
    scrollToLoadAllVideos (MAX_SCROLLS + 1 + extra)
        (okPage (countsThen [5, 10, 12, 12, 12, 12] rest)) =
      some { scrollCount := 6, previousVideoCount := 12, noNewVideosCount := 3,
             measurements := 6, counts := [5, 10, 12, 12, 12, 12], stalls := [0, 0, 0, 1, 2, 3],
             caught := false } ∧
    scrollToLoadAllVideos (MAX_SCROLLS + 1 + extra) (okPage (fun k => min (5 * (k + 1)) 12)) =
      some { scrollCount := 6, previousVideoCount := 12, noNewVideosCount := 3,
             measurements := 6, counts := [5, 10, 12, 12, 12, 12], stalls := [0, 0, 0, 1, 2, 3],
             caught := false } := by
  have e : MAX_SCROLLS + 1 + extra = 7 + (44 + extra) := by simp [MAX_SCROLLS]; omega
  rw [e]
  unfold scrollToLoadAllVideos
  refine ⟨?_, ?_, ?_⟩
  · apply scrollLoop_fuel_mono
    rfl
  · apply scrollLoop_fuel_mono
    rfl
  · apply scrollLoop_fuel_mono
    decide


/-! ## Theorems: the extractor -/

/-- Pushing the defined results of `f` one by one builds the `filterMap`. -/
theorem foldl_push_eq_filterMap {α β : Type} (f : α → Option β) (g : List β → α → List β)
    (hg : ∀ acc x, g acc x = acc ++ (f x).toList) (l : List α) (init : List β) :
    l.foldl g init = init ++ l.filterMap f := by
  induction l generalizing init with
  | nil => simp
  | cons x l ih =>
    rw [List.foldl_cons, ih, List.filterMap_cons, hg]
    cases f x <;> simp

/-- The records are the defined results of the callback, in document order. -/
theorem extractVideoData_eq_filterMap (env : JsEnv) (videoElements : List ItemElement) :
    extractVideoData env videoElements =
      videoElements.enum.filterMap (fun p => extractElement env p.1 p.2) := by
  unfold extractVideoData
  rw [foldl_push_eq_filterMap (fun p : Nat × ItemElement => extractElement env p.1 p.2)]
  · simp
  · intro acc p
    cases extractElement env p.1 p.2 <;> simp

/-- A record is pushed exactly for an element with a non-empty link URL and a
non-empty image URL, and it carries those two URLs. -/
theorem extractElement_some_iff (env : JsEnv) (index : Nat) (element : ItemElement) :
    (hasLinkAndImage element = true →
      ∃ video, extractElement env index element = some video ∧
        video.url = element.a.getD "" ∧ video.thumbnail = element.img.getD "" ∧
        video.url ≠ "" ∧ video.thumbnail ≠ "") ∧
    (hasLinkAndImage element = false → extractElement env index element = none) := by
  cases ha : element.a with
  | none => simp [hasLinkAndImage, extractElement, ha]
  | some href =>
    cases hi : element.img with
    | none => simp [hasLinkAndImage, extractElement, ha, hi]
    | some src =>
      by_cases h1 : href = "" <;> by_cases h2 : src = "" <;>
        simp [hasLinkAndImage, extractElement, ha, hi, h1, h2]

/-- The URL pairs of the records pushed for a numbered list of elements are
those of the elements that have both. -/
theorem filterMap_enumFrom_urls (env : JsEnv) (videoElements : List ItemElement) (n : Nat) :
    ((videoElements.enumFrom n).filterMap (fun p => extractElement env p.1 p.2)).map
        (fun video => (video.url, video.thumbnail)) =
      (videoElements.filter hasLinkAndImage).map
        (fun element => (element.a.getD "", element.img.getD "")) := by
  induction videoElements generalizing n with
  | nil => simp
  | cons element rest ih =>
    rw [List.enumFrom_cons, List.filterMap_cons, List.filter_cons]
    cases h : hasLinkAndImage element with
    | true =>
      obtain ⟨video, hv, hu, ht, -, -⟩ := (extractElement_some_iff env n element).1 h
      simp [hv, hu, ht, ih]
    | false =>
      have hv := (extractElement_some_iff env n element).2 h
      simp [hv, ih]

/-- C5: the records returned by `extractVideoData` are the records the
callback builds for the elements that have both a non-empty link URL and a
non-empty image URL, in document order; an element lacking either yields no
record; every record has a non-empty `url` and `thumbnail`; and `totalVideos`
of `saveToJSON` is the number of records. -/
theorem extractVideoData_required_fields (env : JsEnv) (videoElements : List ItemElement)
    (username now : String) :
    extractVideoData env videoElements =
      (videoElements.enum.filter (fun p => hasLinkAndImage p.2)).filterMap
        (fun p => extractElement env p.1 p.2) ∧
    (∀ index element, (extractElement env index element).isSome = hasLinkAndImage element) ∧
    (extractVideoData env videoElements).map (fun video => (video.url, video.thumbnail)) =
      (videoElements.filter hasLinkAndImage).map
        (fun element => (element.a.getD "", element.img.getD "")) ∧
    (∀ video, video ∈ extractVideoData env videoElements →
      video.url ≠ "" ∧ video.thumbnail ≠ "") ∧
    (saveToJSON username now (extractVideoData env videoElements)).totalVideos =
      (extractVideoData env videoElements).length ∧
    (extractVideoData env videoElements).length =
      (videoElements.filter hasLinkAndImage).length := by
  have hsome : ∀ index element,
      (extractElement env index element).isSome = hasLinkAndImage element := by
    intro index element
    cases h : hasLinkAndImage element with
    | true =>
      obtain ⟨video, hv, -⟩ := (extractElement_some_iff env index element).1 h
      simp [hv]
    | false => simp [(extractElement_some_iff env index element).2 h]
  have hurls := filterMap_enumFrom_urls env videoElements 0
  rw [← List.enum, ← extractVideoData_eq_filterMap] at hurls
  refine ⟨?_, hsome, hurls, ?_, rfl, ?_⟩
  · rw [extractVideoData_eq_filterMap, List.filterMap_filter]
    apply List.filterMap_congr
    intro p _
    cases h : hasLinkAndImage p.2 with
    | true => simp [Option.guard]
    | false => simp [Option.guard, (extractElement_some_iff env p.1 p.2).2 h]
  · intro video hmem
    rw [extractVideoData_eq_filterMap, List.mem_filterMap] at hmem
    obtain ⟨p, -, hp⟩ := hmem
    cases h : hasLinkAndImage p.2 with
    | true =>
      obtain ⟨v, hv, -, -, h1, h2⟩ := (extractElement_some_iff env p.1 p.2).1 h
      rw [hv] at hp
      cases hp
      exact ⟨h1, h2⟩
    | false =>
      rw [(extractElement_some_iff env p.1 p.2).2 h] at hp
      cases hp
  · have := congrArg List.length hurls
    simpa using this


/-- The callback of the first tier assigns the lowered text to the field the
element is classified into and leaves the variables alone otherwise. -/
theorem statStep_eq (env : JsEnv) (acc : Stats) (stat : StatElement) :
    statStep env acc stat =
      match classify env stat with
      | some StatField.likes => { acc with likes := env.toLowerCase stat.textContent }
      | some StatField.comments => { acc with comments := env.toLowerCase stat.textContent }
      | some StatField.views => { acc with views := env.toLowerCase stat.textContent }
      | none => acc := by
  unfold statStep classify
  by_cases hf : (includes (env.toLowerCase stat.textContent) "k" ||
      includes (env.toLowerCase stat.textContent) "m" ||
      digitsOnly (env.toLowerCase stat.textContent)) = true
  · simp only [hf, if_true]
    cases hp : stat.previousElementSibling with
    | none => rfl
    | some sibling =>
      cases hsvg : sibling.svg with
      | none =>
        by_cases h1 : includes sibling.outerHTML "heart" = true
        · simp [hsvg, h1]
        · by_cases h2 : includes sibling.outerHTML "comment" = true <;> simp [hsvg, h1, h2]
      | some svg =>
        by_cases h1 : includes svg "heart" = true
        · simp [hsvg, h1]
        · by_cases h2 : includes svg "comment" = true <;> simp [hsvg, h1, h2]
  · simp only [hf]
    rfl

/-- Adding a count element at the end: it decides the field it is assigned
to and leaves the other fields as they were. -/
theorem lastAssigned_concat (env : JsEnv) (field : StatField) (l : List StatElement)
    (stat : StatElement) :
    lastAssigned env field (l ++ [stat]) =
      if classify env stat = some field then env.toLowerCase stat.textContent
      else lastAssigned env field l := by
  unfold lastAssigned
  rw [List.filter_append]
  by_cases h : classify env stat = some field
  · simp [h]
  · simp [h]

/-- The variables after the first tier. -/
theorem foldl_statStep (env : JsEnv) (l : List StatElement) :
    l.foldl (statStep env) Stats.unavailable =
      { views := lastAssigned env StatField.views l,
        likes := lastAssigned env StatField.likes l,
        comments := lastAssigned env StatField.comments l } := by
  induction l using List.reverseRecOn with
  | nil => rfl
  | append_singleton l stat ih =>
    rw [List.foldl_append, ih, List.foldl_cons, List.foldl_nil, statStep_eq]
    simp only [lastAssigned_concat]
    cases hc : classify env stat with
    | none => simp
    | some field => cases field <;> simp

/-- The first tier in closed form. -/
theorem tier1_eq (env : JsEnv) (l : List StatElement) :
    tier1 env l =
      { views := lastAssigned env StatField.views l,
        likes := lastAssigned env StatField.likes l,
        comments := lastAssigned env StatField.comments l } := by
  unfold tier1
  split
  · exact foldl_statStep env l
  · rename_i h
    have : l = [] := by
      cases l with
      | nil => rfl
      | cons x xs => simp at h
    subst this
    rfl

/-- The record pushed for an element, field by field. -/
theorem extractElement_fields (env : JsEnv) (index : Nat) (element : ItemElement)
    (video : VideoRecord) (hv : extractElement env index element = some video) :
    video.likes = (tier2 element.strong (tier1 env element.videoCount)).likes ∧
    video.comments = (tier2 element.strong (tier1 env element.videoCount)).comments ∧
    video.views = (tier2 element.strong (tier1 env element.videoCount)).views ∧
    video.title =
      (match element.desc, element.caption with
       | some text, _ => env.trim text
       | none, some text => env.trim text
       | none, none => "Vídeo " ++ toString (index + 1)) := by
  unfold extractElement at hv
  simp only at hv
  split at hv
  · cases hv
    refine ⟨rfl, rfl, rfl, ?_⟩
    cases element.desc <;> cases element.caption <;> rfl
  · cases hv


/-- C6 (as stated, refuted): an item whose two `strong` nodes have the texts
`""` and `"7"` is emitted with like count `"N/A"`, which is not the text of
its first `strong` node. -/
theorem extractElement_tier2_refuted :
    ∃ video, extractElement asciiEnv 0 { sampleItem with strong := ["", "7"] } = some video ∧
      video.likes = "N/A" ∧ video.likes ≠ "" ∧ video.comments = "7" := by
  refine ⟨_, rfl, ?_, ?_, ?_⟩ <;> decide

/-- C6 (amended): for an item with at least two `strong` nodes, the emitted
like count is the text of the first one and the emitted comment count the text
of the second one, each replaced by `"N/A"` when it is empty, whatever the
count elements of the item are. -/
theorem extractElement_tier2 (env : JsEnv) (index : Nat) (element : ItemElement)
    (video : VideoRecord) (s0 s1 : String) (others : List String)
    (hs : element.strong = s0 :: s1 :: others)
    (hv : extractElement env index element = some video) :
    video.likes = (if s0 = "" then "N/A" else s0) ∧
    video.comments = (if s1 = "" then "N/A" else s1) := by
  obtain ⟨hl, hc, -, -⟩ := extractElement_fields env index element video hv
  rw [hl, hc, hs]
  exact ⟨rfl, rfl⟩

/-- Witness of `extractElement_tier2`: a heart-classified count element is
overridden by the two `strong` texts. -/
theorem extractElement_tier2_witness :
    extractElement asciiEnv 3
        { sampleItem with videoCount := [⟨"12k", some heartIcon⟩], strong := ["", "7", "9"] } =
      some { url := "https://www.tiktok.com/@user/video/1", title := "Vídeo 4",
             thumbnail := "https://cdn.example/1.jpg", likes := "N/A", comments := "7",
             views := "N/A", extractedAt := "2024-01-01T00:00:00.000Z" } ∧
    ("N/A" = (if ("" : String) = "" then "N/A" else "") ∧
     "7" = (if ("7" : String) = "" then "N/A" else "7")) :=
  ⟨by decide,
   extractElement_tier2 asciiEnv 3
     { sampleItem with videoCount := [⟨"12k", some heartIcon⟩], strong := ["", "7", "9"] }
     { url := "https://www.tiktok.com/@user/video/1", title := "Vídeo 4",
       thumbnail := "https://cdn.example/1.jpg", likes := "N/A", comments := "7",
       views := "N/A", extractedAt := "2024-01-01T00:00:00.000Z" }
     "" "7" ["9"] rfl (by decide)⟩

/-- C7 (as stated, refuted): a count element `1.5` preceded by a heart icon
does not become the like count; a count element `12` without preceding
sibling is not assigned to the view count; a count element `12K` preceded by
a heart icon yields the like count `12k`; and a count element `77` whose
preceding markup contains `heart` outside its `svg` goes to the view
count. -/
theorem extractElement_tier1_refuted :
    (∃ video, extractElement asciiEnv 0
        { sampleItem with videoCount := [⟨"1.5", some heartIcon⟩] } = some video ∧
      video.likes = "N/A" ∧ video.likes ≠ "1.5") ∧
    (∃ video, extractElement asciiEnv 0
        { sampleItem with videoCount := [⟨"12", none⟩] } = some video ∧
      video.views = "N/A" ∧ video.views ≠ "12") ∧
    (∃ video, extractElement asciiEnv 0
        { sampleItem with videoCount := [⟨"12K", some heartIcon⟩] } = some video ∧
      video.likes = "12k" ∧ video.likes ≠ "12K") ∧
    (∃ video, extractElement asciiEnv 0
        { sampleItem with videoCount := [⟨"77", some heartWrapper⟩] } = some video ∧
      includes heartWrapper.outerHTML "heart" = true ∧
      video.likes = "N/A" ∧ video.views = "77") := by
  refine ⟨⟨_, rfl, ?_, ?_⟩, ⟨_, rfl, ?_, ?_⟩, ⟨_, rfl, ?_, ?_⟩, ⟨_, rfl, ?_, ?_, ?_⟩⟩ <;> decide

/-- C7 (amended): for an item with fewer than two `strong` nodes, a count
element is considered only when its lowered text contains `k` or `m` or is a
run of digits and it has a preceding sibling; it is classified by the icon
markup (the first `svg` inside that sibling, else the sibling itself) as like
count when the markup contains `heart`, else comment count when it contains
`comment`, else view count; each field is the lowered text of the last count
element assigned to it, or `"N/A"` when there is none. -/
theorem extractElement_tier1 (env : JsEnv) (index : Nat) (element : ItemElement)
    (video : VideoRecord) (hs : element.strong.length < 2)
    (hv : extractElement env index element = some video) :
    video.likes = lastAssigned env StatField.likes element.videoCount ∧
    video.comments = lastAssigned env StatField.comments element.videoCount ∧
    video.views = lastAssigned env StatField.views element.videoCount := by
  obtain ⟨hl, hc, hw, -⟩ := extractElement_fields env index element video hv
  have ht : tier2 element.strong (tier1 env element.videoCount) =
      tier1 env element.videoCount := by
    cases hstrong : element.strong with
    | nil => rfl
    | cons s0 tl =>
      cases tl with
      | nil => rfl
      | cons s1 tl2 =>
        rw [hstrong] at hs
        simp only [List.length_cons] at hs
        omega
  rw [ht, tier1_eq] at hl hc hw
  exact ⟨hl, hc, hw⟩

/-- Witness of `extractElement_tier1`: three count elements, one per field. -/
theorem extractElement_tier1_witness :
    ([] : List String).length < 2 ∧
    extractElement asciiEnv 0
        { sampleItem with videoCount :=
            [⟨"3.4M", some ⟨none, "<i class=\"views\"></i>"⟩⟩, ⟨"12K", some heartIcon⟩,
             ⟨"7", some ⟨none, "<i class=\"comment\"></i>"⟩⟩] } =
      some { url := "https://www.tiktok.com/@user/video/1", title := "Vídeo 1",
             thumbnail := "https://cdn.example/1.jpg", likes := "12k", comments := "7",
             views := "3.4m", extractedAt := "2024-01-01T00:00:00.000Z" } ∧
    ("12k" = lastAssigned asciiEnv StatField.likes
        [⟨"3.4M", some ⟨none, "<i class=\"views\"></i>"⟩⟩, ⟨"12K", some heartIcon⟩,
         ⟨"7", some ⟨none, "<i class=\"comment\"></i>"⟩⟩] ∧
     "7" = lastAssigned asciiEnv StatField.comments
        [⟨"3.4M", some ⟨none, "<i class=\"views\"></i>"⟩⟩, ⟨"12K", some heartIcon⟩,
         ⟨"7", some ⟨none, "<i class=\"comment\"></i>"⟩⟩] ∧
     "3.4m" = lastAssigned asciiEnv StatField.views
        [⟨"3.4M", some ⟨none, "<i class=\"views\"></i>"⟩⟩, ⟨"12K", some heartIcon⟩,
         ⟨"7", some ⟨none, "<i class=\"comment\"></i>"⟩⟩]) :=
  ⟨by decide, by decide,
   extractElement_tier1 asciiEnv 0
     { sampleItem with videoCount :=
         [⟨"3.4M", some ⟨none, "<i class=\"views\"></i>"⟩⟩, ⟨"12K", some heartIcon⟩,
          ⟨"7", some ⟨none, "<i class=\"comment\"></i>"⟩⟩] }
     { url := "https://www.tiktok.com/@user/video/1", title := "Vídeo 1",
       thumbnail := "https://cdn.example/1.jpg", likes := "12k", comments := "7",
       views := "3.4m", extractedAt := "2024-01-01T00:00:00.000Z" }
     (by decide) (by decide)⟩

/-- C8 (as stated, refuted): the item at index 0 without any title element
gets the title `Vídeo 1`, not `Item 1`; and an item whose primary title
element has empty text gets the empty title, not a placeholder. -/
theorem extractElement_title_refuted :
    (∃ video, extractElement asciiEnv 0 sampleItem = some video ∧
      video.title = "Vídeo 1" ∧ video.title ≠ "Item 1") ∧
    (∃ video, extractElement asciiEnv 0 { sampleItem with desc := some "" } = some video ∧
      video.title = "" ∧ video.title ≠ "Item 1") := by
  refine ⟨⟨_, rfl, ?_, ?_⟩, ⟨_, rfl, ?_, ?_⟩⟩ <;> decide

/-- C8 (amended): the title of the item at 0-based index `index` is the
trimmed text of the primary title element if present, else the trimmed text
of the secondary one if present (also when that text is empty), and the
placeholder `Vídeo` followed by `index + 1` when neither is present. -/
theorem extractElement_title (env : JsEnv) (index : Nat) (element : ItemElement)
    (video : VideoRecord) (hv : extractElement env index element = some video) :
    video.title =
      (match element.desc, element.caption with
       | some text, _ => env.trim text
       | none, some text => env.trim text
       | none, none => "Vídeo " ++ toString (index + 1)) :=
  (extractElement_fields env index element video hv).2.2.2

/-- Witness of `extractElement_title`: the secondary title element is used
when the primary one is absent. -/
theorem extractElement_title_witness :
    extractElement asciiEnv 6 { sampleItem with caption := some "  dance  #fyp \n" } =
      some { url := "https://www.tiktok.com/@user/video/1", title := "dance  #fyp",
             thumbnail := "https://cdn.example/1.jpg", likes := "N/A", comments := "N/A",
             views := "N/A", extractedAt := "2024-01-01T00:00:00.000Z" } ∧
    "dance  #fyp" = asciiEnv.trim "  dance  #fyp \n" :=
  ⟨by decide,
   extractElement_title asciiEnv 6 { sampleItem with caption := some "  dance  #fyp \n" }
     { url := "https://www.tiktok.com/@user/video/1", title := "dance  #fyp",
       thumbnail := "https://cdn.example/1.jpg", likes := "N/A", comments := "N/A",
       views := "N/A", extractedAt := "2024-01-01T00:00:00.000Z" }
     (by decide)⟩


/-! ## Theorems: the CSV writer -/

/-- Reading back the doubled title up to its closing quote, when the closing
quote is not followed by another quote. -/
theorem readQuoted_doubleQuotes (title : List Char) (rest : List Char)
    (hrest : rest.head? ≠ some '"') :
    readQuoted (doubleQuotes title ++ '"' :: rest) = some (title, rest) := by
  induction title with
  | nil =>
    cases rest with
    | nil => simp [doubleQuotes, readQuoted]
    | cons ch2 rest2 =>
      have h2 : ch2 ≠ '"' := by simpa using hrest
      simp [doubleQuotes, readQuoted, h2]
  | cons ch title ih =>
    by_cases h : ch = '"'
    · subst h
      simp [doubleQuotes, readQuoted, ih]
    · simp only [doubleQuotes, if_neg h, List.cons_append]
      rw [readQuoted.eq_def]
      simp only [if_neg h, ih]
      rfl

/-- The characters of the escaped title. -/
theorem csvTitle_data (title : String) :
    (csvTitle title).data = '"' :: (doubleQuotes title.data ++ ['"']) := by
  simp [csvTitle, String.data_append]

/-- C9: for every title, the field `saveToCSV` writes for it (quotes doubled,
wrapped in quotes) is read back by a quote-respecting CSV reader as the
original title, both on its own and followed by the comma and the rest of the
row. -/
theorem csvTitle_roundtrip (title rest : String) :
    parseQuotedField (csvTitle title) = some (title, "") ∧
    parseQuotedField (csvTitle title ++ "," ++ rest) = some (title, "," ++ rest) := by
  constructor
  · unfold parseQuotedField
    rw [csvTitle_data]
    simp only [if_true]
    rw [readQuoted_doubleQuotes title.data [] (by simp)]
    rfl
  · unfold parseQuotedField
    rw [String.data_append, String.data_append, csvTitle_data]
    have hd : (",".data ++ rest.data).head? ≠ some '"' := by
      show some ',' ≠ some '"'
      decide
    have e : '"' :: (doubleQuotes title.data ++ ['"']) ++ ",".data ++ rest.data =
        '"' :: (doubleQuotes title.data ++ '"' :: (",".data ++ rest.data)) := by simp
    rw [e]
    simp only [if_true]
    rw [readQuoted_doubleQuotes title.data _ hd]
    rfl

/-- Joining from the left puts the separator in front of every later
element. -/
theorem foldl_join (sep : String) (l : List String) (init : String) :
    l.foldl (fun r next => r ++ sep ++ next) init =
      init ++ l.foldr (fun x acc => sep ++ x ++ acc) "" := by
  induction l generalizing init with
  | nil => simp
  | cons x l ih =>
    rw [List.foldl_cons, ih, List.foldr_cons]
    simp [String.append_assoc]

/-- C10 (as stated, refuted): the first segment written by `saveToCSV` is the
header of line 255, which is not
`URL,Title,Thumbnail,Likes,Comments,Views,ExtractedAt`. -/
theorem csvContent_header_refuted :
    csvContent [] = "URL,Título,Thumbnail,Likes,Comentários,Views,Data Extração" ∧
    csvContent [] ≠ "URL,Title,Thumbnail,Likes,Comments,Views,ExtractedAt" := by
  decide

/-- C10 (amended): for every list of records the content is the header
`URL,Título,Thumbnail,Likes,Comentários,Views,Data Extração` followed, for
each record in order, by a newline and the record's url, quote-escaped title,
thumbnail, likes, comments, views and extractedAt joined by commas; only the
title is escaped and nothing follows the last row. -/
theorem csvContent_layout (videos : List VideoRecord) :
    csvContent videos =
      "URL,Título,Thumbnail,Likes,Comentários,Views,Data Extração" ++
        videos.foldr
          (fun video tail =>
            "\n" ++ (video.url ++ "," ++ csvTitle video.title ++ "," ++ video.thumbnail ++ "," ++
              video.likes ++ "," ++ video.comments ++ "," ++ video.views ++ "," ++
              video.extractedAt) ++ tail)
          "" := by
  unfold csvContent
  rw [join, foldl_join]
  have hh : join "," headers = "URL,Título,Thumbnail,Likes,Comentários,Views,Data Extração" := by
    decide
  rw [hh]
  congr 1
  unfold rows
  induction videos with
  | nil => rfl
  | cons video rest ih =>
    simp only [List.map_cons, List.foldr_cons]
    rw [ih]
    rfl

end TikTokScraper
